import Mathlib

/-!
Shallow embedding of the access-gating and messaging core of the
simple-html-greetings repository.

Embedded source files:
- `src/src/components/OnboardingProtectedRoute.tsx` — the route gate deciding
  between rendering a view and redirecting to auth, onboarding, or home;
- `src/src/App.tsx` — the routing table that omits the `requireOnboarding`
  prop, exercising its declared default;
- `src/src/pages/ClientPortal.tsx` — the send-message mutation, the file
  upload handler, and the realtime change-notification subscription;
- `src/src/components/MessageInput.tsx` — the input whose `disabled` prop
  reflects the in-flight send mutation.
-/

/-- The outcome of rendering `OnboardingProtectedRoute` once for a given
session, onboarding state and location: either the loading indicator, one of
the three `Navigate` redirects, or the protected children. The two redirects
that pass `state=\x7b\x7bfrom: location\x7d\x7d` carry the requested pathname. -/
inductive Decision where
  | loading
  | redirectAuth (fromPath : String)
  | redirectOnboarding (fromPath : String)
  | redirectHome
  | render
  deriving DecidableEq, Repr

/-- The `useLocation()` value consumed by the gate; only `pathname` is read. -/
structure Location where
  pathname : String
  deriving DecidableEq, Repr

/-- Embedding of the body of `OnboardingProtectedRoute`
(src/src/components/OnboardingProtectedRoute.tsx, lines 32-58):
`if (loading || checking)` renders the spinner; `if (!user)` navigates to
`/auth` carrying the location; `if (requireOnboarding && !onboardingCompleted)`
navigates to `/onboarding` carrying the location unless already there; then
`if (location.pathname === "/onboarding" && onboardingCompleted)` navigates
home; otherwise the children render. The fall-through after the inner
same-path check is represented by `afterOnboardingGate`. -/
def OnboardingProtectedRoute (user : Option String) (loading checking : Bool)
    (requireOnboarding : Bool) (onboardingCompleted : Bool)
    (location : Location) : Decision :=
  if loading || checking then
    Decision.loading
  else if user.isNone then
    Decision.redirectAuth location.pathname
  else
    let afterOnboardingGate : Decision :=
      if location.pathname == "/onboarding" && onboardingCompleted then
        Decision.redirectHome
      else
        Decision.render
    if requireOnboarding && !onboardingCompleted then
      if location.pathname != "/onboarding" then
        Decision.redirectOnboarding location.pathname
      else
        afterOnboardingGate
    else
      afterOnboardingGate

/-- The component's props: `requireOnboarding?: boolean` is optional, `none`
models a usage site that does not pass the prop (as every
`<OnboardingProtectedRoute>` element in src/src/App.tsx does). -/
structure OnboardingProtectedRouteProps where
  requireOnboarding : Option Bool
  deriving DecidableEq, Repr

/-- The destructuring default `requireOnboarding = true` in the component's
parameter list. -/
def propsRequireOnboarding (p : OnboardingProtectedRouteProps) : Bool :=
  p.requireOnboarding.getD true

/-- The gate as invoked from a route element: the optional prop is resolved
through its declared default before the body runs. -/
def OnboardingProtectedRouteFromProps (p : OnboardingProtectedRouteProps)
    (user : Option String) (loading checking onboardingCompleted : Bool)
    (location : Location) : Decision :=
  OnboardingProtectedRoute user loading checking (propsRequireOnboarding p)
    onboardingCompleted location

/-- True when the gate produced a navigation outcome — a render of the
protected view or one of the redirects — rather than the loading indicator. -/
def isNavigationDecision (d : Decision) : Bool :=
  match d with
  | Decision.loading => false
  | _ => true

/-- A message record as served by the messages query. -/
structure Message where
  id : Nat
  content : String
  senderIsClient : Bool
  deriving DecidableEq, Repr

/-- A file record as served by the files query. -/
structure FileItem where
  id : Nat
  name : String
  clientId : String
  deriving DecidableEq, Repr

/-- A toast emitted through `useToast`, either default or destructive variant. -/
inductive Toast where
  | success (title description : String)
  | destructive (title description : String)
  deriving DecidableEq, Repr

/-- The react-query cache entries ClientPortal uses: the lists last fetched
for the two query keys, each with a freshness flag that `invalidateQueries`
clears (a cleared flag makes react-query re-fetch the active query). -/
structure QueryCache where
  messagesData : List Message
  messagesValid : Bool
  filesData : List FileItem
  filesValid : Bool
  deriving DecidableEq, Repr

/-- react-query mutation status as exposed on `sendMessageMutation`. -/
inductive MutationStatus where
  | idle
  | pending
  | success
  | error
  deriving DecidableEq, Repr

/-- The client-side state of ClientPortal relevant to the claims: the query
cache, the send-message mutation's status, and the toasts emitted so far. -/
structure PortalState where
  cache : QueryCache
  sendStatus : MutationStatus
  toasts : List Toast
  deriving DecidableEq, Repr

/-- Modelled from the spec: the backend data service holding the conversation's
message sequence and the stored file records (spec section 6); the repository's
`src/services/messageService` and `src/services/fileService` modules are not
present under `src/`, only their callers in ClientPortal are. -/
structure Server where
  messages : List Message
  files : List FileItem
  deriving DecidableEq, Repr

/-- The synchronous effect of `sendMessageMutation.mutate(content)` called from
MessageInput's `onSendMessage`: react-query creates the mutation record and its
status becomes pending before any network settlement. -/
def sendMessageMutate (st : PortalState) : PortalState :=
  { st with sendStatus := MutationStatus.pending }

/-- MessageInput's `disabled=\x7bsendMessageMutation.isPending\x7d` prop: the UI
reflection of the in-flight pending action. -/
def messageInputDisabled (st : PortalState) : Bool :=
  st.sendStatus == MutationStatus.pending

/-- The list MessageList renders: exactly the messages query data — ClientPortal
injects no optimistic entries into it. -/
def renderedMessages (st : PortalState) : List Message :=
  st.cache.messagesData

/-- The list FileList renders: exactly the files query data — ClientPortal
injects no optimistic entries into it. -/
def renderedFiles (st : PortalState) : List FileItem :=
  st.cache.filesData

/-- `queryClient.invalidateQueries(\x7bqueryKey: ['client-messages', clientId]\x7d)`:
marks the messages entry stale; the cached list itself is untouched. -/
def invalidateMessages (st : PortalState) : PortalState :=
  { st with cache := { st.cache with messagesValid := false } }

/-- `queryClient.invalidateQueries(\x7bqueryKey: ['client-files', clientId]\x7d)`:
marks the files entry stale; the cached list itself is untouched. -/
def invalidateFiles (st : PortalState) : PortalState :=
  { st with cache := { st.cache with filesValid := false } }

/-- The `onSuccess` handler of `sendMessageMutation` plus react-query's status
transition: invalidate the messages key and toast "Message sent". -/
def sendMessageOnSuccess (st : PortalState) : PortalState :=
  { invalidateMessages st with
      sendStatus := MutationStatus.success,
      toasts := st.toasts ++
        [Toast.success "Message sent" "Your message has been sent successfully."] }

/-- The `onError` handler of `sendMessageMutation` plus react-query's status
transition: destructive toast, no invalidation. -/
def sendMessageOnError (st : PortalState) : PortalState :=
  { st with
      sendStatus := MutationStatus.error,
      toasts := st.toasts ++
        [Toast.destructive "Error" "Failed to send message. Please try again."] }

/-- Modelled from the spec: `sendMessage(participantId, content, senderIsClient)
→ Message | error` (spec section 6) — on success the backend stores exactly the
one confirmed message at the end of the conversation. -/
def serverSendMessage (srv : Server) (m : Message) : Server :=
  { srv with messages := srv.messages ++ [m] }

/-- Modelled from the spec: `fetchMessages(participantId) → ordered sequence of
Message` (spec section 6) combined with react-query's automatic re-fetch of an
invalidated active query: the cached list is replaced wholesale by the
backend's list and the entry becomes fresh again. -/
def refetchMessages (srv : Server) (st : PortalState) : PortalState :=
  { st with cache := { st.cache with
      messagesData := srv.messages,
      messagesValid := true } }

/-- Modelled from the spec: `fetchFiles(participantId) → set of FileRecord`
(spec section 6); ClientPortal's files query then keeps only this client's
files (`allFiles.filter(file => file.clientId === clientId)`). -/
def refetchFiles (srv : Server) (clientId : String) (st : PortalState) :
    PortalState :=
  { st with cache := { st.cache with
      filesData := srv.files.filter (fun f => f.clientId == clientId),
      filesValid := true } }

/-- One successful send-message round trip as ClientPortal performs it:
the synchronous `mutate` step, the backend storing the confirmed message, and
the `onSuccess` handler. The subsequent re-fetch is `refetchMessages`. -/
def sendMessageSuccessFlow (srv : Server) (st : PortalState)
    (confirmed : Message) : Server × PortalState :=
  let stPending := sendMessageMutate st
  let srvAfter := serverSendMessage srv confirmed
  (srvAfter, sendMessageOnSuccess stPending)

/-- The client state observable while `await fileService.uploadFile(...)` is in
flight: `handleFileUpload` performs no state change before the await, so the
in-flight state is the pre-submit state itself. -/
def handleFileUploadInFlight (st : PortalState) : PortalState := st

/-- Embedding of `handleFileUpload` (src/src/pages/ClientPortal.tsx, lines
59-80) applied to the settled backend outcome: a truthy `uploadedFile`
invalidates the files key and toasts success with the uploaded file's name; a
null result throws `Error("File upload failed")` into the catch; a rejection
reaches the catch with its own message. The catch only toasts destructively. -/
def handleFileUpload (fileName : String) (st : PortalState)
    (result : Except String (Option FileItem)) : PortalState :=
  match result with
  | Except.ok (some _) =>
      { invalidateFiles st with
          toasts := st.toasts ++
            [Toast.success "File uploaded"
              (fileName ++ " has been uploaded successfully.")] }
  | Except.ok none =>
      { st with toasts := st.toasts ++
          [Toast.destructive "Upload failed" "File upload failed"] }
  | Except.error msg =>
      { st with toasts := st.toasts ++
          [Toast.destructive "Upload failed" msg] }

/-- A call issued to the backend data service. -/
inductive BackendCall where
  | sendMessageCall (content : String)
  | uploadFileCall (fileName : String)
  deriving DecidableEq, Repr

/-- The backend calls one invocation of `handleFileUpload` makes: exactly one
`uploadFile`, whatever the outcome — the catch block contains no retry. -/
def handleFileUploadCalls (fileName : String)
    (_result : Except String (Option FileItem)) : List BackendCall :=
  [BackendCall.uploadFileCall fileName]

/-- A `postgres_changes` event payload as delivered to the channel callback;
the handler in ClientPortal never inspects it. -/
structure ChangeEvent where
  eventType : String
  changedField : String
  newValue : String
  deriving DecidableEq, Repr

/-- The realtime subscription callback in ClientPortal (lines 83-100): on any
event on the `client_messages` channel filtered to this client, invalidate the
`['client-messages', clientId]` key; the payload is ignored. -/
def onClientMessagesEvent (st : PortalState) (_payload : ChangeEvent) :
    PortalState :=
  invalidateMessages st

/-- C1: with the identity absent and settling over (no auth loading, local
check finished), the gate decides RedirectAuth for every onboarding requirement,
every onboarding status and every requested path, and the redirect carries the
originally requested location. -/
theorem c1_absent_identity_redirects_auth
    (requireOnboarding onboardingCompleted : Bool) (location : Location) :
    OnboardingProtectedRoute none false false requireOnboarding
      onboardingCompleted location = Decision.redirectAuth location.pathname := by
  rfl

/-- C2: with the identity present, the route requiring onboarding and onboarding
not completed, the gate renders when the requested path is already the
onboarding path, and otherwise redirects to onboarding carrying the originally
requested location. -/
theorem c2_incomplete_onboarding_redirects
    (uid : String) (location : Location) :
    (location.pathname = "/onboarding" →
      OnboardingProtectedRoute (some uid) false false true false location
        = Decision.render) ∧
    (location.pathname ≠ "/onboarding" →
      OnboardingProtectedRoute (some uid) false false true false location
        = Decision.redirectOnboarding location.pathname) := by
  constructor
  · intro h
    simp [OnboardingProtectedRoute, h]
  · intro h
    simp [OnboardingProtectedRoute, h]

/-- Witness for C2 at uid "u": the onboarding path itself renders; the path
"/kanban" redirects to onboarding carrying "/kanban". -/
theorem c2_incomplete_onboarding_redirects_witness :
    OnboardingProtectedRoute (some "u") false false true false ⟨"/onboarding"⟩
      = Decision.render ∧
    OnboardingProtectedRoute (some "u") false false true false ⟨"/kanban"⟩
      = Decision.redirectOnboarding "/kanban" :=
  ⟨(c2_incomplete_onboarding_redirects "u" ⟨"/onboarding"⟩).1 rfl,
   (c2_incomplete_onboarding_redirects "u" ⟨"/kanban"⟩).2 (by decide)⟩

/-- C3 counterexample: with the identity present, the route declaring
requireOnboarding=false, onboarding completed and the onboarding path requested,
the gate returns RedirectHome, not Render — rule 4 is not skipped for
requireOnboarding=false routes. -/
theorem c3_counterexample :
    OnboardingProtectedRoute (some "u") false false false true ⟨"/onboarding"⟩
      ≠ Decision.render := by
  decide

/-- C3 amended: with the identity present and the route declaring
requireOnboarding=false, the gate skips rule 3 (it never redirects to
onboarding) and renders for every path and onboarding state, except that rule 4
still applies: on the onboarding path with onboarding completed it returns
RedirectHome. -/
theorem c3_amended_require_false_skips_rule3
    (uid : String) (onboardingCompleted : Bool) (location : Location) :
    OnboardingProtectedRoute (some uid) false false false onboardingCompleted
      location
      = if location.pathname == "/onboarding" && onboardingCompleted then
          Decision.redirectHome
        else Decision.render := by
  rfl

/-- C4: with the identity present and onboarding completed, for every
onboarding requirement the gate returns RedirectHome exactly on the onboarding
path and Render on every other path, in particular on "/kanban". -/
theorem c4_completed_identity
    (uid : String) (requireOnboarding : Bool) (location : Location) :
    (OnboardingProtectedRoute (some uid) false false requireOnboarding true
        location
      = if location.pathname == "/onboarding" then Decision.redirectHome
        else Decision.render) ∧
    OnboardingProtectedRoute (some uid) false false requireOnboarding true
      ⟨"/kanban"⟩ = Decision.render := by
  cases requireOnboarding <;>
    simp [OnboardingProtectedRoute]

/-- C9: whenever the session is still settling (auth loading true), the
component short-circuits to the loading indicator: the decision logic below the
guard is never reached and no navigation decision (render or redirect) is
produced, for every identity, onboarding state and path. -/
theorem c9_settling_produces_no_navigation
    (user : Option String)
    (checking requireOnboarding onboardingCompleted : Bool)
    (location : Location) :
    OnboardingProtectedRoute user true checking requireOnboarding
      onboardingCompleted location = Decision.loading ∧
    isNavigationDecision
      (OnboardingProtectedRoute user true checking requireOnboarding
        onboardingCompleted location) = false := by
  exact ⟨rfl, rfl⟩

/-- C10: a route element that does not pass the requireOnboarding prop (as all
routes in App.tsx do) resolves the prop to true, so the gate behaves exactly as
with requireOnboarding=true; concretely, a signed-in identity with incomplete
onboarding requesting "/kanban" through such a route is redirected to
onboarding, not treated as public. -/
theorem c10_default_gates_behind_onboarding
    (user : Option String) (loading checking onboardingCompleted : Bool)
    (location : Location) :
    propsRequireOnboarding ⟨none⟩ = true ∧
    OnboardingProtectedRouteFromProps ⟨none⟩ user loading checking
        onboardingCompleted location
      = OnboardingProtectedRoute user loading checking true
          onboardingCompleted location ∧
    OnboardingProtectedRouteFromProps ⟨none⟩ (some "u") false false false
        ⟨"/kanban"⟩
      = Decision.redirectOnboarding "/kanban" := by
  refine ⟨rfl, rfl, by decide⟩

/-- C5: a send-message submit synchronously puts the mutation in the pending
state and the UI reflects it immediately (MessageInput is disabled) before the
server confirms; a file upload makes no state change while the request is in
flight, so no entry is shown in any list until the server confirms. -/
theorem c5_optimistic_asymmetry (st : PortalState) :
    (sendMessageMutate st).sendStatus = MutationStatus.pending ∧
    messageInputDisabled (sendMessageMutate st) = true ∧
    renderedMessages (sendMessageMutate st) = renderedMessages st ∧
    handleFileUploadInFlight st = st ∧
    renderedFiles (handleFileUploadInFlight st) = renderedFiles st := by
  exact ⟨rfl, rfl, rfl, rfl, rfl⟩

/-- C6: every inbound event on the subscribed client_messages stream triggers
exactly the invalidation of the client-messages key — the handler's result is
the same for any two payloads, the entry is marked stale (which schedules the
automatic re-fetch), the cached list is not touched by the handler (no partial
or differential update from the payload), and the re-fetch replaces the list
wholesale with the backend's list. -/
theorem c6_event_invalidates_never_patches
    (st : PortalState) (p q : ChangeEvent) :
    onClientMessagesEvent st p = invalidateMessages st ∧
    onClientMessagesEvent st p = onClientMessagesEvent st q ∧
    (onClientMessagesEvent st p).cache.messagesValid = false ∧
    (onClientMessagesEvent st p).cache.messagesData = st.cache.messagesData ∧
    (∀ srv : Server,
      (refetchMessages srv (onClientMessagesEvent st p)).cache.messagesData
        = srv.messages) := by
  exact ⟨rfl, rfl, rfl, rfl, fun _ => rfl⟩

/-- C7: when a send-message submit succeeds, the mutation leaves the pending
state, the client-messages key is invalidated, and the re-fetched list shown
to the user contains the confirmed message exactly once (the client never held
an optimistic copy that could duplicate it). -/
theorem c7_send_success_message_exactly_once
    (srv : Server) (st : PortalState) (confirmed : Message)
    (hfresh : confirmed ∉ srv.messages) :
    (sendMessageSuccessFlow srv st confirmed).2.sendStatus
        ≠ MutationStatus.pending ∧
    (sendMessageSuccessFlow srv st confirmed).2.cache.messagesValid = false ∧
    (renderedMessages
        (refetchMessages (sendMessageSuccessFlow srv st confirmed).1
          (sendMessageSuccessFlow srv st confirmed).2)).count confirmed
      = 1 := by
  refine ⟨by simp [sendMessageSuccessFlow, sendMessageOnSuccess,
    invalidateMessages, sendMessageMutate], rfl, ?_⟩
  have hzero : srv.messages.count confirmed = 0 := List.count_eq_zero.mpr hfresh
  simp [sendMessageSuccessFlow, serverSendMessage, refetchMessages,
    renderedMessages, List.count_append, hzero]

/-- Witness for C7: starting from an empty backend and an idle portal, the
confirmed message with id 1 and content "hello" appears exactly once in the
re-fetched list. -/
theorem c7_send_success_message_exactly_once_witness :
    (renderedMessages
        (refetchMessages
          (sendMessageSuccessFlow ⟨[], []⟩
            ⟨⟨[], true, [], true⟩, MutationStatus.idle, []⟩
            ⟨1, "hello", true⟩).1
          (sendMessageSuccessFlow ⟨[], []⟩
            ⟨⟨[], true, [], true⟩, MutationStatus.idle, []⟩
            ⟨1, "hello", true⟩).2)).count ⟨1, "hello", true⟩ = 1 :=
  (c7_send_success_message_exactly_once ⟨[], []⟩
    ⟨⟨[], true, [], true⟩, MutationStatus.idle, []⟩
    ⟨1, "hello", true⟩ (by decide)).2.2

/-- C8: when a file upload fails, the files cache entry is neither changed nor
invalidated (so no FileRecord appears), the failure is surfaced as a
destructive toast carrying the error message, the in-flight state never showed
an optimistic entry, and the handler issued exactly one upload request (no
silent retry). -/
theorem c8_upload_failure_no_record_no_retry
    (st : PortalState) (fileName msg : String) :
    (handleFileUpload fileName st (Except.error msg)).cache.filesData
        = st.cache.filesData ∧
    (handleFileUpload fileName st (Except.error msg)).cache.filesValid
        = st.cache.filesValid ∧
    (handleFileUpload fileName st (Except.error msg)).toasts
        = st.toasts ++ [Toast.destructive "Upload failed" msg] ∧
    renderedFiles (handleFileUploadInFlight st) = renderedFiles st ∧
    (handleFileUploadCalls fileName (Except.error msg)).count
        (BackendCall.uploadFileCall fileName) = 1 := by
  refine ⟨rfl, rfl, rfl, rfl, ?_⟩
  simp [handleFileUploadCalls]
